import Mathlib

/-
Shallow embedding of the Plant-Sim engine (src/plantsim/*.py).

Python floats are modelled as rationals (ℚ); the claims under study are about
the engine's control flow and arithmetic structure, not float rounding.
Coordinate tuples (`tuple[int, int]`) are modelled as ℤ × ℤ; the pydantic
`Coord` objects held by `Config.coords_for_directions` are modelled by the
`Coord` structure, whose subscript operation (`Coord.getitem`) always fails,
mirroring the missing `__getitem__` on the pydantic model.  Calls to
`random()` / `np.random.uniform` are modelled by explicit draw parameters:
each draw is a rational in [0, 1) supplied by the caller.  Failing Python
lookups the claims turn on — the missing `Config.cell_lifespan` attribute,
the missing `Genome.mutate` method, and the `Coord` subscripts at
plant_cell.py lines 82, 116 and 124 — are modelled explicitly via name
tables or `Option` results taken from the source, with `Except` carrying
the raised `AttributeError` / `TypeError`.
-/

namespace PlantSim

/-- src/plantsim/cell_types.py: the five cell types. -/
inductive CellType : Type
  | SEED
  | ROOT
  | STEM
  | LEAF
  | FLOWER
deriving DecidableEq, Repr

/-- coord.py `Coord`: a pydantic `BaseModel` with integer fields `x`, `y`.
It defines `__add__`, `__neg__`, `__hash__` and `__eq__` (by the `(x, y)`
pair) — and no `__getitem__`. -/
structure Coord : Type where
  x : ℤ
  y : ℤ
deriving DecidableEq, Repr

/-- Subscripting a `Coord`, as in `coord_offset[0]` (plant_cell.py line 82)
or `coord[0]` (lines 116/124).  pydantic `BaseModel` provides no
`__getitem__`, so the lookup always fails: `none` models the raised
`TypeError`. -/
def Coord.getitem (_ : Coord) (_ : ℕ) : Option ℤ := none

/-- Python errors the embedding models explicitly. -/
inductive PyErr : Type
  | attributeError
  | typeError
deriving DecidableEq, Repr

namespace Config

/-! Constants from src/plantsim/config.py (SIMULATION / GENOME / RESOURCES /
PLANTS / MISC sections). -/

def base_growth_p : ℚ := 1 / 100

def flower_grow_rate : ℚ := 1 / 10

def flower_growth_efficiency : ℚ := 2

def growth_cooldown : ℤ := 20

def distance_factor_scale : ℚ := 5 / 100

def direction_mutation_p : ℚ := 1 / 48

def redetermination_p : ℚ := 1 / 10

def mutation_sigma : ℚ := 2 / 10

def leaf_energy_gain : ℚ := 1 / 10

def stem_energy_gain : ℚ := 1 / 100

def root_water_gain : ℚ := 1 / 10

def default_creation_cost : ℚ := 1 / 2

def default_loss_per_tick : ℚ := 1 / 100

def seed_creation_cost : ℚ := 10

def cell_resource_capacity : ℚ := 10

def plant_lifespan : ℤ := 2000

def dead_cell_lifespan : ℤ := 200

/-- config.py `coords_for_directions`: a list of pydantic `Coord` objects,
index 0 = Coord(1, 0), rotating counter-clockwise through the 8 compass
directions. -/
def coords_for_directions : List Coord :=
  [⟨1, 0⟩, ⟨1, -1⟩, ⟨0, -1⟩, ⟨-1, -1⟩, ⟨-1, 0⟩, ⟨-1, 1⟩, ⟨0, 1⟩, ⟨1, 1⟩]

/-- The names of every class attribute the `Config` class in
src/plantsim/config.py defines.  `cell_lifespan` is not among them. -/
def attr_names : List String :=
  [ "app_title", "root_dir_path", "data_dir_path", "ground_mask_path",
    "window_size", "grid_size", "air_color", "ground_color",
    "cell_type_colors", "dead_cell_color", "initial_plant_coord",
    "tick_rate", "base_growth_p", "flower_grow_rate",
    "flower_growth_efficiency", "growth_cooldown", "distance_factor_scale",
    "direction_mutation_p", "redetermination_p", "mutation_sigma",
    "leaf_energy_gain", "stem_energy_gain", "root_water_gain",
    "default_creation_cost", "default_loss_per_tick", "seed_creation_cost",
    "cell_resource_capacity", "plant_lifespan", "dead_cell_lifespan",
    "growable_types", "coords_for_directions" ]

/-- Lookup of the integer-valued `Config` attributes by name (the attributes
of config.py whose values are integers).  Any name that config.py does not
define — in particular `cell_lifespan`, read by `Seed.update` — maps to
`none`, which models Python's `AttributeError`. -/
def attr_int (s : String) : Option ℤ :=
  if s = "tick_rate" then some 0
  else if s = "flower_growth_efficiency" then some 2
  else if s = "growth_cooldown" then some 20
  else if s = "seed_creation_cost" then some 10
  else if s = "cell_resource_capacity" then some 10
  else if s = "plant_lifespan" then some 2000
  else if s = "dead_cell_lifespan" then some 200
  else none

end Config

/-- The names of the methods that `class Genome` in src/plantsim/genome.py
defines.  There is no `mutate`: the mutation entry point is `get_mutation`,
yet plant_cell.py line 226 calls `self.genome.mutate()`. -/
def genome_method_names : List String :=
  ["init_random", "get_mutation", "test_expression", "flower_color"]

/-- Dot product of two rational lists (`factor_array.dot(self.factors)` in
genome.py; both operands have length 5 wherever the source uses it). -/
def dot5 (xs ys : List ℚ) : ℚ :=
  (List.zipWith (· * ·) xs ys).sum

/-- genome.py `DirectionalGrowthGenes`: a base probability and five linear
factors weighting age, local density, cell distance, water and energy. -/
structure DirectionalGrowthGenes : Type where
  growth_p : ℚ
  factors : List ℚ
deriving DecidableEq, Repr

namespace DirectionalGrowthGenes

/-- genome.py `DirectionalGrowthGenes.init_zero`. -/
def init_zero : DirectionalGrowthGenes :=
  { growth_p := 0, factors := List.replicate 5 0 }

/-- genome.py `DirectionalGrowthGenes.init_random`: `growth_p` is
`Config.base_growth_p` and the five factors are
`np.random.uniform(size=5) * Config.base_growth_p`; the five unit-interval
draws are the explicit parameter `u`. -/
def init_random (u : Fin 5 → ℚ) : DirectionalGrowthGenes :=
  { growth_p := Config.base_growth_p,
    factors := (List.ofFn u).map (· * Config.base_growth_p) }

/-- genome.py `DirectionalGrowthGenes.test_expression`.  The single call of
`random()` is the explicit draw parameter `u`; the result is
`u < growth_p + (factors · [age, density, distance*scale, water, energy]) * base_growth_p`.
Note the source multiplies the dot product by `Config.base_growth_p`. -/
def test_expression (g : DirectionalGrowthGenes) (u : ℚ) (age density : ℚ)
    (distance : ℤ) (water energy : ℚ) : Bool :=
  decide (u < g.growth_p +
    dot5 [age, density, (distance : ℚ) * Config.distance_factor_scale, water, energy]
      g.factors * Config.base_growth_p)

end DirectionalGrowthGenes

/-- Association-list lookup, the model of Python `dict[key]` access for the
genome's insertion-ordered dictionaries. -/
def alookup {β : Type} : List (CellType × β) → CellType → Option β
  | [], _ => none
  | (k, v) :: rest, t => if k = t then some v else alookup rest t

/-- genome.py `CellTypeGrowthInfo`: for one source cell type, the per-target
lists of 8 directional genes, in dict insertion order. -/
structure CellTypeGrowthInfo : Type where
  growth_genome_for_celltype : List (CellType × List DirectionalGrowthGenes)
deriving DecidableEq, Repr

namespace CellTypeGrowthInfo

/-- genome.py `CellTypeGrowthInfo.test_expression`: one independent draw per
(target type, direction); the draw supply `u` is indexed by target type and
direction index. -/
def test_expression (info : CellTypeGrowthInfo) (u : CellType → ℕ → ℚ)
    (age density : ℚ) (distance : ℤ) (water energy : ℚ) :
    List (CellType × List Bool) :=
  info.growth_genome_for_celltype.map fun p =>
    (p.1, p.2.enum.map fun q =>
      q.2.test_expression (u p.1 q.1) age density distance water energy)

end CellTypeGrowthInfo

/-- genome.py `Genome`: per-source-type growth info, in dict insertion
order. -/
structure Genome : Type where
  directional_growth : List (CellType × CellTypeGrowthInfo)
deriving DecidableEq, Repr

namespace Genome

/-- genome.py `Genome.test_expression`: delegates to the source type's
`CellTypeGrowthInfo`.  (init_random genomes have an entry for every cell
type; a missing key, which would be a Python `KeyError`, yields `[]`.) -/
def test_expression (g : Genome) (ct : CellType) (u : CellType → ℕ → ℚ)
    (age density : ℚ) (distance : ℤ) (water energy : ℚ) :
    List (CellType × List Bool) :=
  match alookup g.directional_growth ct with
  | none => []
  | some info => info.test_expression u age density distance water energy

/-- genome.py `Genome.init_random`.  `U` supplies one block of five
unit-interval draws per `DirectionalGrowthGenes.init_random` call, numbered
in source evaluation order: ROOT→ROOT directions 5,6,7 are blocks 0,1,2;
STEM→STEM directions 1,2,3 are blocks 3,4,5; STEM→LEAF directions 0–7 are
blocks 6–13; STEM→FLOWER directions 0–7 are blocks 14–21.  After building
the table the source pins `[SEED][STEM][2].growth_p = 1` and
`[SEED][ROOT][6].growth_p = 1` ("stem goes up, root goes down"), modelled
with `List.set`. -/
def init_random (U : ℕ → Fin 5 → ℚ) : Genome :=
  let z := DirectionalGrowthGenes.init_zero
  let pinned : DirectionalGrowthGenes := { growth_p := 1, factors := List.replicate 5 0 }
  { directional_growth :=
    [ (CellType.SEED,
        { growth_genome_for_celltype :=
          [ (CellType.STEM, (List.replicate 8 z).set 2 pinned),
            (CellType.ROOT, (List.replicate 8 z).set 6 pinned) ] }),
      (CellType.ROOT,
        { growth_genome_for_celltype :=
          [ (CellType.ROOT,
              [z, z, z, z, z,
               DirectionalGrowthGenes.init_random (U 0),
               DirectionalGrowthGenes.init_random (U 1),
               DirectionalGrowthGenes.init_random (U 2)]) ] }),
      (CellType.STEM,
        { growth_genome_for_celltype :=
          [ (CellType.STEM,
              [z,
               DirectionalGrowthGenes.init_random (U 3),
               DirectionalGrowthGenes.init_random (U 4),
               DirectionalGrowthGenes.init_random (U 5),
               z, z, z, z]),
            (CellType.LEAF,
              (List.range 8).map fun i => DirectionalGrowthGenes.init_random (U (6 + i))),
            (CellType.FLOWER,
              (List.range 8).map fun i => DirectionalGrowthGenes.init_random (U (14 + i))) ] }),
      (CellType.LEAF, { growth_genome_for_celltype := [] }),
      (CellType.FLOWER, { growth_genome_for_celltype := [] }) ] }

/-- Extract the directional gene of a genome at (source type, target type,
direction index), for stating properties of `init_random`. -/
def gene_at (g : Genome) (src tgt : CellType) (i : ℕ) :
    Option DirectionalGrowthGenes :=
  match alookup g.directional_growth src with
  | none => none
  | some info =>
    match alookup info.growth_genome_for_celltype tgt with
    | none => none
    | some l => l.get? i

end Genome

/-- Following the spec's words (claim C4): the claimed expression probability
`growth_p + (factors · [age, density, distance*scale, water, energy])`, with
no scaling of the dot product. -/
def claimed_expression_p (g : DirectionalGrowthGenes) (age density : ℚ)
    (distance : ℤ) (water energy : ℚ) : ℚ :=
  g.growth_p +
    dot5 [age, density, (distance : ℚ) * Config.distance_factor_scale, water, energy]
      g.factors

/-- plant_cell.py: `creation_cost_energy` of each `PlantCell` subclass.  No
subclass overrides the base-class value `Config.default_creation_cost`. -/
def creation_cost_energy (_ : CellType) : ℚ := Config.default_creation_cost

/-- plant_cell.py: `creation_cost_water` of each `PlantCell` subclass; like
`creation_cost_energy`, always `Config.default_creation_cost`. -/
def creation_cost_water (_ : CellType) : ℚ := Config.default_creation_cost

/-- A new-cell record produced by `PlantCell._sample_growth`: the child's
coordinate and type, plus the spawning cell passed as `parent=self` —
represented by its coordinate, the non-owning handle the design note in the
spec prescribes — and `cell_distance=self.cell_distance+1`. -/
structure SpawnRec : Type where
  coords : ℤ × ℤ
  cell_type : CellType
  parent_coords : ℤ × ℤ
  cell_distance : ℤ
deriving DecidableEq, Repr

/-- Inner loop of plant_cell.py `PlantCell._sample_growth` for one candidate
child type `t`: walk `zip(directional_expressions, Config.coords_for_directions)`.
For each expressed direction the source first evaluates
`new_coords = (self.coords[0] + coord_offset[0], self.coords[1] + coord_offset[1])`
(line 82); `coord_offset` is a pydantic `Coord` with no `__getitem__`, so
this raises `TypeError` — the walk errors on the first expressed direction.
The `some` continuation (the occupancy check, the terrain check
`ground = True` exactly for a ROOT child, the cost deduction and the spawn
record) is what the loop body would do were `Coord` subscriptable; it is
unreachable, since `Coord.getitem` is always `none`, and numpy's
negative-index wrap is accordingly not modelled in it. -/
def grow_dir_list (t : CellType) (selfCoords : ℤ × ℤ) (dist : ℤ)
    (allCoords : List (ℤ × ℤ)) (ground : ℤ × ℤ → Bool) :
    ℚ × ℚ → List (Bool × Coord) → Except PyErr ((ℚ × ℚ) × List SpawnRec)
  | st, [] => .ok (st, [])
  | st, (expressed, off) :: rest =>
    if expressed then
      match off.getitem 0, off.getitem 1 with
      | some ox, some oy =>
        let nc : ℤ × ℤ := (selfCoords.1 + ox, selfCoords.2 + oy)
        if nc ∈ allCoords then
          grow_dir_list t selfCoords dist allCoords ground st rest
        else if ground nc = decide (t = CellType.ROOT) then
          let st1 : ℚ × ℚ := (st.1 - creation_cost_energy t, st.2 - creation_cost_water t)
          match grow_dir_list t selfCoords dist allCoords ground st1 rest with
          | .ok r => .ok (r.1, { coords := nc, cell_type := t, parent_coords := selfCoords,
                                 cell_distance := dist + 1 } :: r.2)
          | .error e => .error e
        else
          grow_dir_list t selfCoords dist allCoords ground st rest
      | _, _ => .error .typeError
    else
      grow_dir_list t selfCoords dist allCoords ground st rest

/-- Outer loop of `PlantCell._sample_growth` over `expressions.items()`: for
each candidate type, first the single resource pre-check
`self.energy >= creation_cost_energy and self.water >= creation_cost_water`
against the *current* running state, then the `any(...)` gate, then the
per-direction walk; an exception raised in the walk propagates. -/
def grow_type_list (selfCoords : ℤ × ℤ) (dist : ℤ) (allCoords : List (ℤ × ℤ))
    (ground : ℤ × ℤ → Bool) :
    ℚ × ℚ → List (CellType × List Bool) → Except PyErr ((ℚ × ℚ) × List SpawnRec)
  | st, [] => .ok (st, [])
  | st, (t, dirs) :: rest =>
    if creation_cost_energy t ≤ st.1 ∧ creation_cost_water t ≤ st.2 then
      if dirs.any (· = true) then
        match grow_dir_list t selfCoords dist allCoords ground st
            (dirs.zip Config.coords_for_directions) with
        | .ok r =>
          match grow_type_list selfCoords dist allCoords ground r.1 rest with
          | .ok r2 => .ok (r2.1, r.2 ++ r2.2)
          | .error e => .error e
        | .error e => .error e
      else
        grow_type_list selfCoords dist allCoords ground st rest
    else
      grow_type_list selfCoords dist allCoords ground st rest

/-- plant_cell.py `PlantCell._sample_growth`: fixed inputs `age = 1`,
`density = 1`, normalized `water` and `energy`
(`self.water / Config.cell_resource_capacity`, likewise energy), one
expression table from the genome, then the type/direction walk.  A pass
either returns the final (energy, water) and the recorded spawns, or raises
— and it raises `TypeError` (from the `Coord` subscript) as soon as any
eligible type has any expressed direction. -/
def sample_growth (g : Genome) (ct : CellType) (coords : ℤ × ℤ) (dist : ℤ)
    (energy water : ℚ) (u : CellType → ℕ → ℚ) (allCoords : List (ℤ × ℤ))
    (ground : ℤ × ℤ → Bool) : Except PyErr ((ℚ × ℚ) × List SpawnRec) :=
  let waterN := water / Config.cell_resource_capacity
  let energyN := energy / Config.cell_resource_capacity
  let exprs := g.test_expression ct u 1 1 dist waterN energyN
  grow_type_list coords dist allCoords ground (energy, water) exprs

/-- The for-loop of plant_cell.py `_get_surrounding_soil_factor` (line 116):
`surrounding_soil += int(coord not in all_coords and ground_matrix[coord[0], coord[1]])`
over the `Coord` objects of `Config.coords_for_directions`.  Python's `and`
short-circuits, so an occupied offset contributes 0 without subscripting; a
free offset subscripts `coord[0]`, and pydantic `Coord` has no
`__getitem__`, so the first free offset raises `TypeError`.  The `some`
continuation is unreachable dead code (`Coord.getitem` is always `none`);
numpy's negative-index wrap is accordingly not modelled in it. -/
def soil_count_loop (allCoords : List Coord) (ground : ℤ × ℤ → Bool) :
    ℕ → List Coord → Except PyErr ℕ
  | acc, [] => .ok acc
  | acc, off :: rest =>
    if off ∈ allCoords then
      soil_count_loop allCoords ground acc rest
    else
      match off.getitem 0, off.getitem 1 with
      | some cx, some cy =>
        soil_count_loop allCoords ground
          (acc + (if ground (cx, cy) then 1 else 0)) rest
      | _, _ => .error .typeError

/-- The for-loop of plant_cell.py `_get_surrounding_air_factor` (line 124):
like `soil_count_loop` but counting `not ground_matrix[...]`; it has the
same short-circuit and the same `Coord`-subscript `TypeError`. -/
def air_count_loop (allCoords : List Coord) (ground : ℤ × ℤ → Bool) :
    ℕ → List Coord → Except PyErr ℕ
  | acc, [] => .ok acc
  | acc, off :: rest =>
    if off ∈ allCoords then
      air_count_loop allCoords ground acc rest
    else
      match off.getitem 0, off.getitem 1 with
      | some cx, some cy =>
        air_count_loop allCoords ground
          (acc + (if !ground (cx, cy) then 1 else 0)) rest
      | _, _ => .error .typeError

/-- plant_cell.py `PlantCell._get_surrounding_soil_factor`: the loop count
divided by 8.  Note the loop tests the offset coordinate itself, never
`self.coords + offset`, although the docstring says "surrounding this
cell" — and it raises `TypeError` at the first offset not in
`all_coords`. -/
def get_surrounding_soil_factor (allCoords : List Coord)
    (ground : ℤ × ℤ → Bool) : Except PyErr ℚ :=
  (soil_count_loop allCoords ground 0 Config.coords_for_directions).map
    (fun n => (n : ℚ) / 8)

/-- plant_cell.py `PlantCell._get_surrounding_air_factor`: the air-loop
count divided by 8, with the same caveats as the soil factor. -/
def get_surrounding_air_factor (allCoords : List Coord)
    (ground : ℤ × ℤ → Bool) : Except PyErr ℚ :=
  (air_count_loop allCoords ground 0 Config.coords_for_directions).map
    (fun n => (n : ℚ) / 8)

/-- Following the spec's words (claim C8): the fraction of the 8 *neighbor*
coordinates `self.coord + offset` that are free and ground. -/
def spec_neighbor_soil_factor (coords : ℤ × ℤ) (allCoords : List (ℤ × ℤ))
    (ground : ℤ × ℤ → Bool) : ℚ :=
  ((Config.coords_for_directions.countP fun off =>
      decide ((coords.1 + off.x, coords.2 + off.y) ∉ allCoords) &&
      ground (coords.1 + off.x, coords.2 + off.y) : ℕ) : ℚ) / 8

/-- plant_cell.py `Root._collect_resources`:
`self.water += Config.root_water_gain * surrounding_soil_factor`; an
exception from the factor computation propagates. -/
def root_collect_resources (water : ℚ) (allCoords : List Coord)
    (ground : ℤ × ℤ → Bool) : Except PyErr ℚ :=
  (get_surrounding_soil_factor allCoords ground).map
    (fun f => water + Config.root_water_gain * f)

/-- plant_cell.py `Stem._collect_resources`:
`self.energy += Config.stem_energy_gain * surrounding_air_factor`. -/
def stem_collect_resources (energy : ℚ) (allCoords : List Coord)
    (ground : ℤ × ℤ → Bool) : Except PyErr ℚ :=
  (get_surrounding_air_factor allCoords ground).map
    (fun f => energy + Config.stem_energy_gain * f)

/-- plant_cell.py `Leaf._collect_resources`:
`self.energy += Config.leaf_energy_gain * surrounding_air_factor`. -/
def leaf_collect_resources (energy : ℚ) (allCoords : List Coord)
    (ground : ℤ × ℤ → Bool) : Except PyErr ℚ :=
  (get_surrounding_air_factor allCoords ground).map
    (fun f => energy + Config.leaf_energy_gain * f)

/-- The mutable per-cell state read and written by plant_cell.py
`PlantCell.update`: `is_alive`, `age`, `water`, `energy`. -/
structure CellState : Type where
  is_alive : Bool
  age : ℤ
  water : ℚ
  energy : ℚ
deriving DecidableEq, Repr

/-- plant_cell.py `PlantCell.update` (lines 48–61), the shared part that the
Stem/Root/Leaf/Flower updates run through `super().update(...)`:
`age += 1`; if the parent is dead and self alive, set `age = parent.age` and
`is_alive = False`; if dead and `age >= Config.dead_cell_lifespan`, return a
removal record (the `Bool` component, true = emitted) and stop; if alive,
share resources with the parent by symmetric averaging.  Returns
(self, parent, emitted-removal). -/
def base_update (self parent : CellState) : CellState × CellState × Bool :=
  let a1 := self.age + 1
  let st :=
    if !parent.is_alive && self.is_alive then
      { self with age := parent.age, is_alive := false }
    else
      { self with age := a1 }
  if !st.is_alive && decide (Config.dead_cell_lifespan ≤ st.age) then
    (st, parent, true)
  else if st.is_alive then
    let total_energy := parent.energy + st.energy
    let total_water := parent.water + st.water
    ({ st with energy := total_energy / 2, water := total_water / 2 },
     { parent with energy := total_energy / 2, water := total_water / 2 },
     false)
  else
    (st, parent, false)

/-- Iterated `base_update` on a (self, parent) pair: each tick the updated
parent state is carried forward. -/
def iter_update : ℕ → CellState × CellState → CellState × CellState
  | 0, sp => sp
  | k + 1, sp =>
    let r := base_update sp.1 sp.2
    iter_update k (r.1, r.2.1)

/-- The update records a `Seed.update` call can emit (plant_cell.py
`CellUpdate` values): removal of a cell, the moved falling-seed copy, or a
grown child. -/
inductive SeedUpd : Type
  | removeAt (coords : ℤ × ℤ)
  | moveTo (coords : ℤ × ℤ)
  | grown (s : SpawnRec)
deriving DecidableEq, Repr

/-- The state of a `Seed` cell read by `Seed.update`. -/
structure SeedState : Type where
  coords : ℤ × ℤ
  age : ℤ
  is_alive : Bool
  water : ℚ
  energy : ℚ
  cell_distance : ℤ
deriving DecidableEq, Repr

/-- plant_cell.py `Seed.update` (lines 254–271).  If the seed's coordinate is
air, `_fall_down`: emit a remove-here plus an add-one-row-below pair.  Else
`age += 1`; then the age-based death check
`if self.is_alive and self.age >= Config.cell_lifespan` reads
`Config.cell_lifespan` via attribute lookup — config.py defines no such
attribute, so when the seed is alive the lookup raises `AttributeError`
(`Config.attr_int "cell_lifespan" = none`).  A dead seed skips the read
(Python `and` short-circuits), checks `age >= Config.dead_cell_lifespan`
for removal, and otherwise returns nothing. -/
def seed_update (g : Genome) (s : SeedState) (u : CellType → ℕ → ℚ)
    (allCoords : List (ℤ × ℤ)) (ground : ℤ × ℤ → Bool) :
    Except PyErr (SeedState × List SeedUpd) :=
  if ground s.coords = false then
    .ok (s, [.removeAt s.coords, .moveTo (s.coords.1, s.coords.2 + 1)])
  else
    let s1 := { s with age := s.age + 1 }
    if s1.is_alive then
      match Config.attr_int "cell_lifespan" with
      | none => .error .attributeError
      | some lifespan =>
        -- the continuation the source would run if the attribute existed
        let s2 := if lifespan ≤ s1.age then { s1 with age := 0, is_alive := false } else s1
        if !s2.is_alive && decide (Config.dead_cell_lifespan ≤ s2.age) then
          .ok (s2, [.removeAt s2.coords])
        else if s2.is_alive then
          match sample_growth g CellType.SEED s2.coords s2.cell_distance
              s2.energy s2.water u allCoords ground with
          | .ok r => .ok ({ s2 with energy := r.1.1, water := r.1.2 }, r.2.map .grown)
          | .error e => .error e
        else
          .ok (s2, [])
    else
      if Config.dead_cell_lifespan ≤ s1.age then
        .ok (s1, [.removeAt s1.coords])
      else
        .ok (s1, [])

/-- The state of a `Flower` cell read by `Flower._grow_seed`. -/
structure FlowerState : Type where
  coords : ℤ × ℤ
  water : ℚ
  energy : ℚ
  seed_progress_water : ℚ
  seed_progress_energy : ℚ
deriving DecidableEq, Repr

/-- The update records `Flower._grow_seed` emits on seed completion:
removal of the flower and the replacement cell of the given type. -/
inductive FlowerUpd : Type
  | removeAt (coords : ℤ × ℤ)
  | addCell (coords : ℤ × ℤ) (t : CellType)
deriving DecidableEq, Repr

/-- plant_cell.py `Flower._grow_seed` (lines 213–230): bank
`Config.flower_grow_rate` water into `seed_progress_water` (scaled by
`Config.flower_growth_efficiency`) while `water > flower_grow_rate` and the
progress is below `Config.seed_creation_cost`; mirror for energy.  When both
progress values have reached `seed_creation_cost`, build the replacement
seed with `Seed(genome=self.genome.mutate(), ...)` — but `class Genome`
defines no method named `mutate` (its mutation entry point is
`get_mutation`), so the method lookup raises `AttributeError`. -/
def flower_grow_seed (f : FlowerState) :
    Except PyErr (FlowerState × Option (List FlowerUpd)) :=
  let f1 :=
    if Config.flower_grow_rate < f.water ∧ f.seed_progress_water < Config.seed_creation_cost then
      { f with water := f.water - Config.flower_grow_rate,
               seed_progress_water := f.seed_progress_water +
                 Config.flower_grow_rate * Config.flower_growth_efficiency }
    else f
  let f2 :=
    if Config.flower_grow_rate < f1.energy ∧ f1.seed_progress_energy < Config.seed_creation_cost then
      { f1 with energy := f1.energy - Config.flower_grow_rate,
                seed_progress_energy := f1.seed_progress_energy +
                  Config.flower_grow_rate * Config.flower_growth_efficiency }
    else f1
  if Config.seed_creation_cost ≤ f2.seed_progress_energy ∧
     Config.seed_creation_cost ≤ f2.seed_progress_water then
    if "mutate" ∈ genome_method_names then
      .ok (f2, some [.removeAt f2.coords, .addCell f2.coords CellType.SEED])
    else
      .error .attributeError
  else
    .ok (f2, none)

/-- Modelled from the spec: the `Plant` aggregate.  plant_sim.py imports
`Plant` from plantsim.plant, but src/plantsim/plant.py contains an older
`PlantCell` iteration and defines no `Plant` class, so the falling plant of
spec section 4.3 is modelled here: a fall position, the landed flag, and the
coordinate-indexed cell collection (empty while falling). -/
structure Plant : Type where
  coord : ℤ × ℤ
  landed : Bool
  cells : List ((ℤ × ℤ) × CellType)
deriving DecidableEq, Repr

/-- Modelled from the spec: the fall-or-land branch of `Plant.update`
(spec section 4.3) for a not-yet-landed plant.  "If not yet landed: if the
cell's current coordinate is ground, land — instantiate a Seed there (only
if unoccupied), mark landed, and add the coordinate to `occupied`; otherwise
move the plant's position down by one row."  Down is +y, matching
`Seed._fall_down` in src/plantsim/plant_cell.py. -/
def plant_fall_step (p : Plant) (occupied : List (ℤ × ℤ))
    (ground : ℤ × ℤ → Bool) : Plant × List (ℤ × ℤ) :=
  if p.landed then (p, occupied)
  else if ground p.coord then
    if p.coord ∈ occupied then ({ p with landed := true }, occupied)
    else ({ p with landed := true, cells := [(p.coord, CellType.SEED)] },
          p.coord :: occupied)
  else ({ p with coord := (p.coord.1, p.coord.2 + 1) }, occupied)

/-- Modelled from the spec: the growth-cooldown gate of spec section 4.2.
src/plantsim/config.py declares `Config.growth_cooldown = 20` but no cell in
src/plantsim/plant_cell.py reads it, so the gate around growth sampling is
modelled from the spec's words: "skipped while `growth_cooldown > 0`
(cooldown decremented instead)"; a sampling pass runs otherwise, and a pass
that spawns sets the cooldown to the configured tick count.  The sampling
pass itself is taken abstractly by its outcome `passResult` — the cell's
(energy, water) after the pass and the recorded spawns — since the gate's
behaviour is independent of the sampling model.  Returns the new cooldown,
the cell's (energy, water) and the spawns. -/
def cooldown_update (cooldown : ℤ) (energy water : ℚ)
    (passResult : (ℚ × ℚ) × List SpawnRec) :
    ℤ × (ℚ × ℚ) × List SpawnRec :=
  if 0 < cooldown then (cooldown - 1, (energy, water), [])
  else
    ((if passResult.2 = [] then cooldown else Config.growth_cooldown),
     passResult.1, passResult.2)

/-! Concrete fixtures used by witnesses and counterexamples. -/

/-- All-zero unit-interval draw supply for `Genome.init_random`. -/
def zero_draws : ℕ → Fin 5 → ℚ := fun _ _ => 0

/-- Constant-1/2 expression draw supply. -/
def draws_half : CellType → ℕ → ℚ := fun _ _ => 1 / 2

/-- All-zero expression draw supply. -/
def zero_expr_draws : CellType → ℕ → ℚ := fun _ _ => 0

/-- A ground map that is air everywhere. -/
def ground_air : ℤ × ℤ → Bool := fun _ => false

/-- A ground map that is ground everywhere. -/
def ground_all : ℤ × ℤ → Bool := fun _ => true

/-- A ground map whose rows `y ≥ 5` are ground. -/
def ground_rows5 : ℤ × ℤ → Bool := fun c => decide (5 ≤ c.2)

/-- A fresh random genome with the all-zero draw supply. -/
def genome_fresh : Genome := Genome.init_random zero_draws

/-- A hand-built genome for a STEM cell that expresses STEM growth with
probability 1 in directions 3 and 4 (the two negative-x directions) and
nothing else; reachable gene values, since mutation can push `growth_p`
arbitrarily. -/
def genome_stem2 : Genome :=
  { directional_growth :=
    [ (CellType.STEM,
        { growth_genome_for_celltype :=
          [ (CellType.STEM,
              [ DirectionalGrowthGenes.init_zero, DirectionalGrowthGenes.init_zero,
                DirectionalGrowthGenes.init_zero,
                { growth_p := 1, factors := List.replicate 5 0 },
                { growth_p := 1, factors := List.replicate 5 0 },
                DirectionalGrowthGenes.init_zero, DirectionalGrowthGenes.init_zero,
                DirectionalGrowthGenes.init_zero ]),
            (CellType.LEAF, List.replicate 8 DirectionalGrowthGenes.init_zero),
            (CellType.FLOWER, List.replicate 8 DirectionalGrowthGenes.init_zero) ] }) ] }

/-- A sample spawn record, used as a concrete sampling-pass outcome. -/
def spawn_ex : SpawnRec :=
  { coords := (-1, 5), cell_type := CellType.STEM, parent_coords := (0, 6),
    cell_distance := 2 }

/-- The shape of a gene produced by `DirectionalGrowthGenes.init_random`
from unit-interval draws: `growth_p` is exactly `base_growth_p` and every
factor lies in `[0, base_growth_p)`. -/
def random_form (o : Option DirectionalGrowthGenes) : Prop :=
  ∃ gn, o = some gn ∧ gn.growth_p = Config.base_growth_p ∧
    ∀ f ∈ gn.factors, 0 ≤ f ∧ f < Config.base_growth_p

/-! ## Theorems -/

/-- C4 counterexample: the gene `growth_p = 0`, `factors = [1,0,0,0,0]` at
inputs `age = 1`, `density = distance = water = energy = 0` has claimed
probability `0 + 1·1 = 1`, so the claim predicts the valid draw `1/2`
succeeds — but the code multiplies the dot product by `base_growth_p` and
returns `false`. -/
theorem test_expression_claim_counterexample :
    DirectionalGrowthGenes.test_expression ⟨0, [1, 0, 0, 0, 0]⟩ (1/2) 1 0 0 0 0 = false ∧
    (1/2 : ℚ) < claimed_expression_p ⟨0, [1, 0, 0, 0, 0]⟩ 1 0 0 0 0 ∧
    (0 : ℚ) ≤ 1/2 := by
  refine ⟨?_, ?_, by norm_num⟩
  · simp only [DirectionalGrowthGenes.test_expression, dot5, List.zipWith, List.sum_cons,
      List.sum_nil, decide_eq_false_iff_not, not_lt]
    norm_num [Config.base_growth_p, Config.distance_factor_scale]
  · simp only [claimed_expression_p, dot5, List.zipWith, List.sum_cons, List.sum_nil]
    norm_num [Config.distance_factor_scale]

/-- C4 (amended): a single `DirectionalGrowthGenes.test_expression` call
succeeds iff the draw is strictly below
`growth_p + (factors · [age, density, distance*scale, water, energy]) * base_growth_p`
(the source scales the dot product by `Config.base_growth_p`); the
probability is not clamped — for a valid draw it never succeeds when the
probability is ≤ 0 and always succeeds when it is ≥ 1. -/
theorem test_expression_scaled (g : DirectionalGrowthGenes) (u age density : ℚ)
    (distance : ℤ) (water energy : ℚ) :
    (g.test_expression u age density distance water energy = true ↔
      u < g.growth_p +
        dot5 [age, density, (distance : ℚ) * Config.distance_factor_scale, water, energy]
          g.factors * Config.base_growth_p) ∧
    (0 ≤ u →
      g.growth_p +
        dot5 [age, density, (distance : ℚ) * Config.distance_factor_scale, water, energy]
          g.factors * Config.base_growth_p ≤ 0 →
      g.test_expression u age density distance water energy = false) ∧
    (u < 1 →
      1 ≤ g.growth_p +
        dot5 [age, density, (distance : ℚ) * Config.distance_factor_scale, water, energy]
          g.factors * Config.base_growth_p →
      g.test_expression u age density distance water energy = true) := by
  unfold DirectionalGrowthGenes.test_expression
  refine ⟨by simp, ?_, ?_⟩
  · intro hu hp
    simp only [decide_eq_false_iff_not, not_lt]
    linarith
  · intro hu hp
    simp only [decide_eq_true_eq]
    linarith

/-- C4 witness: the all-zero gene at valid draw 1/2 has probability 0 and
the call returns false. -/
theorem test_expression_scaled_witness :
    DirectionalGrowthGenes.init_zero.test_expression (1/2) 1 1 0 1 1 = false :=
  (test_expression_scaled DirectionalGrowthGenes.init_zero (1/2) 1 1 0 1 1).2.1
    (by norm_num)
    (by simp only [DirectionalGrowthGenes.init_zero, dot5, List.replicate, List.zipWith,
          List.sum_cons, List.sum_nil]
        norm_num)

/-- C5 counterexample: in `Genome.init_random` (here with the all-zero draw
supply) the ROOT→ROOT rule at direction index 0 is `init_zero`, whose
`growth_p = 0` differs from `base_growth_p = 1/100` — so not every non-Seed
directional gene is randomly initialized. -/
theorem init_random_uniform_counterexample :
    (Genome.init_random zero_draws).gene_at CellType.ROOT CellType.ROOT 0 =
      some DirectionalGrowthGenes.init_zero ∧
    DirectionalGrowthGenes.init_zero.growth_p ≠ Config.base_growth_p := by
  constructor
  · rfl
  · norm_num [DirectionalGrowthGenes.init_zero, Config.base_growth_p]

/-- C3: a Flower with both seed-progress counters (and banked resources) at
`seed_creation_cost` reaches the completion branch of `_grow_seed`, which
calls `self.genome.mutate()`; `Genome` defines no `mutate` method, so the
update raises `AttributeError` instead of producing the replacement seed. -/
theorem flower_grow_seed_mutate_missing :
    flower_grow_seed ⟨(3, 3), 10, 10, 10, 10⟩ = .error .attributeError ∧
    "mutate" ∉ genome_method_names := by
  constructor
  · rw [flower_grow_seed]
    norm_num [Config.flower_grow_rate, Config.seed_creation_cost, genome_method_names]
    intro h
    exact absurd h (by decide)
  · decide

/-- C8: resource collection never computes the claimed neighbor fraction.
The factor loop of plant_cell.py tests the bare direction offsets — never
`self.coords + offset`, contradicting its own docstring "surrounding this
cell" — and subscripts `coord[0]` on a pydantic `Coord` (line 116), so it
raises `TypeError` at the first offset not in `all_coords`.  For a Root at
(5,5) over ground rows `y ≥ 5` with nothing occupied, the claim expects a
gain of `root_water_gain * 5/8 = 1/16` water; the code's update raises
instead. -/
theorem root_collect_coord_subscript_typeerror :
    root_collect_resources 0 [] ground_rows5 = .error .typeError ∧
    get_surrounding_soil_factor [] ground_rows5 = .error .typeError ∧
    spec_neighbor_soil_factor (5, 5) [] ground_rows5 = 5/8 ∧
    Config.root_water_gain * spec_neighbor_soil_factor (5, 5) [] ground_rows5 = 1/16 := by
  refine ⟨rfl, rfl, ?_, ?_⟩ <;>
    norm_num [spec_neighbor_soil_factor, ground_rows5, Config.coords_for_directions,
      Config.root_water_gain, List.countP_cons, List.countP_nil]

/-- C10 counterexample: an alive cell whose parent is dead with
`parent.age = 200` dies during this very update (inheriting age 200) and the
same call already emits the removal record — 0 ticks after its death, not
`dead_cell_lifespan = 200` ticks after. -/
theorem dead_parent_immediate_removal :
    (⟨true, 0, 0, 0⟩ : CellState).is_alive = true ∧
    (base_update ⟨true, 0, 0, 0⟩ ⟨false, 200, 0, 0⟩).1.is_alive = false ∧
    (base_update ⟨true, 0, 0, 0⟩ ⟨false, 200, 0, 0⟩).2.2 = true ∧
    Config.dead_cell_lifespan = 200 ∧ (0 : ℤ) ≠ 200 := by
  decide

/-- C1 (spec-modelled): a not-yet-landed plant whose coordinate is not
ground moves down exactly one row and changes nothing else; on the first
tick where the coordinate is ground it lands, and if the coordinate is
unoccupied exactly one Seed cell is instantiated there and the coordinate
is added to the occupied set. -/
theorem plant_fall_step_spec (p : Plant) (occ : List (ℤ × ℤ))
    (ground : ℤ × ℤ → Bool) (h : p.landed = false) :
    (ground p.coord = false →
      plant_fall_step p occ ground = ({ p with coord := (p.coord.1, p.coord.2 + 1) }, occ)) ∧
    (ground p.coord = true →
      (plant_fall_step p occ ground).1.landed = true ∧
      (p.coord ∉ occ →
        (plant_fall_step p occ ground).1.cells = [(p.coord, CellType.SEED)] ∧
        (plant_fall_step p occ ground).2 = p.coord :: occ)) := by
  constructor
  · intro hg
    simp [plant_fall_step, h, hg]
  · intro hg
    by_cases hm : p.coord ∈ occ
    · simp [plant_fall_step, h, hg, hm]
    · simp [plant_fall_step, h, hg, hm]

/-- C1 witness: a plant at (4,5) over ground rows `y ≥ 5` lands, creates one
Seed there and occupies the coordinate. -/
theorem plant_fall_step_spec_witness :
    (plant_fall_step ⟨(4, 5), false, []⟩ [] ground_rows5).1.landed = true ∧
    (plant_fall_step ⟨(4, 5), false, []⟩ [] ground_rows5).1.cells =
      [((4, 5), CellType.SEED)] ∧
    (plant_fall_step ⟨(4, 5), false, []⟩ [] ground_rows5).2 = [(4, 5)] := by
  have T := (plant_fall_step_spec ⟨(4, 5), false, []⟩ [] ground_rows5 rfl).2 (by decide)
  exact ⟨T.1, (T.2 (by decide)).1, (T.2 (by decide)).2⟩

/-- C9 (spec-modelled): the cooldown never goes negative, growth sampling is
not attempted while the cooldown is positive (the cooldown is decremented
and the cell state and spawn list are untouched), and a sampling pass that
spawns sets the cooldown to `Config.growth_cooldown`. -/
theorem cooldown_update_spec (c : ℤ) (e w : ℚ) (r : (ℚ × ℚ) × List SpawnRec)
    (h : 0 ≤ c) :
    0 ≤ (cooldown_update c e w r).1 ∧
    (0 < c → cooldown_update c e w r = (c - 1, (e, w), [])) ∧
    ((cooldown_update c e w r).2.2 ≠ [] →
      (cooldown_update c e w r).1 = Config.growth_cooldown) := by
  by_cases hc : 0 < c
  · refine ⟨?_, fun _ => ?_, ?_⟩
    · simp only [cooldown_update, if_pos hc]
      omega
    · simp only [cooldown_update, if_pos hc]
    · simp [cooldown_update, if_pos hc]
  · refine ⟨?_, fun hlt => absurd hlt hc, ?_⟩
    · simp only [cooldown_update, if_neg hc]
      split
      · exact h
      · norm_num [Config.growth_cooldown]
    · simp only [cooldown_update, if_neg hc]
      intro hne
      rw [if_neg hne]

/-- C9 witness: with cooldown 5 the update just decrements to 4 and runs no
sampling, whatever the pass outcome would have been. -/
theorem cooldown_update_spec_witness :
    cooldown_update 5 (1/2) (1/2) ((0, 0), [spawn_ex]) = (4, ((1 : ℚ)/2, 1/2), []) :=
  (cooldown_update_spec 5 (1/2) (1/2) ((0, 0), [spawn_ex]) (by norm_num)).2.1
    (by norm_num)

/-- C2: `Config` defines no `cell_lifespan` attribute, so for every alive
Seed whose coordinate is ground, `Seed.update` hits the age-based death
check `self.age >= Config.cell_lifespan` and raises `AttributeError` —
growth sampling is never reached. -/
theorem seed_update_missing_cell_lifespan (g : Genome) (s : SeedState)
    (u : CellType → ℕ → ℚ) (allCoords : List (ℤ × ℤ)) (ground : ℤ × ℤ → Bool)
    (hg : ground s.coords = true) (ha : s.is_alive = true) :
    "cell_lifespan" ∉ Config.attr_names ∧
    seed_update g s u allCoords ground = .error .attributeError := by
  have hA : Config.attr_int "cell_lifespan" = none := by decide
  refine ⟨by decide, ?_⟩
  simp [seed_update, hg, ha, hA]

/-- C2 witness: a fresh alive seed on all-ground terrain raises the
modelled `AttributeError`. -/
theorem seed_update_missing_cell_lifespan_witness :
    seed_update genome_fresh ⟨(3, 9), 0, true, 10, 10, 0⟩ zero_expr_draws [] ground_all =
      .error .attributeError :=
  (seed_update_missing_cell_lifespan genome_fresh ⟨(3, 9), 0, true, 10, 10, 0⟩
    zero_expr_draws [] ground_all rfl rfl).2

/-- Helper: a gene built by `DirectionalGrowthGenes.init_random` from
unit-interval draws has the `random_form` shape. -/
theorem random_form_init_random (v : Fin 5 → ℚ) (hv : ∀ j, 0 ≤ v j ∧ v j < 1) :
    random_form (some (DirectionalGrowthGenes.init_random v)) := by
  have hb : (0 : ℚ) < Config.base_growth_p := by norm_num [Config.base_growth_p]
  refine ⟨_, rfl, rfl, ?_⟩
  intro f hf
  simp only [DirectionalGrowthGenes.init_random, List.mem_map, List.mem_ofFn] at hf
  obtain ⟨a, ⟨j, rfl⟩, rfl⟩ := hf
  constructor
  · exact mul_nonneg (hv j).1 hb.le
  · calc v j * Config.base_growth_p < 1 * Config.base_growth_p :=
          mul_lt_mul_of_pos_right (hv j).2 hb
    _ = Config.base_growth_p := one_mul _

/-- C5 (amended): in a genome from `Genome.init_random` with unit-interval
draws, the randomly initialized non-Seed directional genes are exactly
ROOT→ROOT directions 5–7, STEM→STEM directions 1–3, and all eight STEM→LEAF
and STEM→FLOWER directions (each with `growth_p = base_growth_p` and all
five factors in `[0, base_growth_p)`); every other non-Seed directional
gene is `init_zero`. -/
theorem init_random_gene_layout (U : ℕ → Fin 5 → ℚ)
    (hU : ∀ n i, 0 ≤ U n i ∧ U n i < 1) :
    (∀ i, i = 5 ∨ i = 6 ∨ i = 7 →
      random_form ((Genome.init_random U).gene_at CellType.ROOT CellType.ROOT i)) ∧
    (∀ i, i = 1 ∨ i = 2 ∨ i = 3 →
      random_form ((Genome.init_random U).gene_at CellType.STEM CellType.STEM i)) ∧
    (∀ i < 8,
      random_form ((Genome.init_random U).gene_at CellType.STEM CellType.LEAF i) ∧
      random_form ((Genome.init_random U).gene_at CellType.STEM CellType.FLOWER i)) ∧
    (∀ i, i = 0 ∨ i = 1 ∨ i = 2 ∨ i = 3 ∨ i = 4 →
      (Genome.init_random U).gene_at CellType.ROOT CellType.ROOT i =
        some DirectionalGrowthGenes.init_zero) ∧
    (∀ i, i = 0 ∨ i = 4 ∨ i = 5 ∨ i = 6 ∨ i = 7 →
      (Genome.init_random U).gene_at CellType.STEM CellType.STEM i =
        some DirectionalGrowthGenes.init_zero) := by
  refine ⟨?_, ?_, ?_, ?_, ?_⟩
  · rintro i (rfl | rfl | rfl) <;>
      exact random_form_init_random _ (fun j => hU _ j)
  · rintro i (rfl | rfl | rfl) <;>
      exact random_form_init_random _ (fun j => hU _ j)
  · intro i hi
    interval_cases i <;>
      exact ⟨random_form_init_random _ (fun j => hU _ j),
             random_form_init_random _ (fun j => hU _ j)⟩
  · rintro i (rfl | rfl | rfl | rfl | rfl) <;> rfl
  · rintro i (rfl | rfl | rfl | rfl | rfl) <;> rfl

/-- C5 witness: the layout theorem at the all-zero draw supply, direction 5
of ROOT→ROOT. -/
theorem init_random_gene_layout_witness :
    random_form ((Genome.init_random zero_draws).gene_at CellType.ROOT CellType.ROOT 5) :=
  (init_random_gene_layout zero_draws
    (fun _ _ => ⟨le_refl 0, by norm_num [zero_draws]⟩)).1 5 (Or.inl rfl)

/-- Helper: an `init_zero` gene never expresses for a draw ≥ 0 (its
probability is 0). -/
theorem test_zero_gene_expr (v : ℚ) (hv : 0 ≤ v) (age density : ℚ)
    (distance : ℤ) (water energy : ℚ) :
    DirectionalGrowthGenes.init_zero.test_expression v age density distance water energy =
      false := by
  simp only [DirectionalGrowthGenes.test_expression, DirectionalGrowthGenes.init_zero, dot5,
    List.replicate, List.zipWith, List.sum_cons, List.sum_nil, mul_zero, add_zero, zero_add,
    zero_mul, decide_eq_false_iff_not, not_lt]
  exact hv

/-- Helper: a pinned gene (`growth_p = 1`, zero factors) always expresses
for a draw < 1. -/
theorem test_pinned_gene_expr (v : ℚ) (hv : v < 1) (age density : ℚ)
    (distance : ℤ) (water energy : ℚ) :
    DirectionalGrowthGenes.test_expression
      { growth_p := 1, factors := List.replicate 5 0 } v age density distance water energy =
      true := by
  simp only [DirectionalGrowthGenes.test_expression, dot5,
    List.replicate, List.zipWith, List.sum_cons, List.sum_nil, mul_zero, add_zero, zero_add,
    zero_mul, decide_eq_true_eq]
  exact hv

/-- C6: for any genome from `Genome.init_random` and any valid expression
draws, `test_expression(SEED, 1, 1, 0, 1, 1)` is true exactly at direction
index 2 for Stem and index 6 for Root (the pinned probability-1 genes), and
false everywhere else a Seed can grow (probability-0 genes). -/
theorem init_random_seed_pinned (U : ℕ → Fin 5 → ℚ) (u : CellType → ℕ → ℚ)
    (hu : ∀ t i, 0 ≤ u t i ∧ u t i < 1) :
    (Genome.init_random U).test_expression CellType.SEED u 1 1 0 1 1 =
    [(CellType.STEM, [false, false, true, false, false, false, false, false]),
     (CellType.ROOT, [false, false, false, false, false, false, true, false])] := by
  have hz : ∀ (t : CellType) (i : ℕ),
      DirectionalGrowthGenes.init_zero.test_expression (u t i) 1 1 0 1 1 = false :=
    fun t i => test_zero_gene_expr (u t i) (hu t i).1 1 1 0 1 1
  have hp : ∀ (t : CellType) (i : ℕ),
      DirectionalGrowthGenes.test_expression
        { growth_p := 1, factors := List.replicate 5 0 } (u t i) 1 1 0 1 1 = true :=
    fun t i => test_pinned_gene_expr (u t i) (hu t i).2 1 1 0 1 1
  show (CellTypeGrowthInfo.test_expression
      { growth_genome_for_celltype :=
        [ (CellType.STEM, (List.replicate 8 DirectionalGrowthGenes.init_zero).set 2
            { growth_p := 1, factors := List.replicate 5 0 }),
          (CellType.ROOT, (List.replicate 8 DirectionalGrowthGenes.init_zero).set 6
            { growth_p := 1, factors := List.replicate 5 0 }) ] }
      u 1 1 0 1 1) = _
  simp [CellTypeGrowthInfo.test_expression, List.replicate, List.enum, List.enumFrom,
    hz, hp]
  exact ⟨hp _ _, hp _ _⟩

/-- C6 witness: instantiated at the all-zero draw supplies. -/
theorem init_random_seed_pinned_witness :
    (Genome.init_random zero_draws).test_expression CellType.SEED zero_expr_draws 1 1 0 1 1 =
    [(CellType.STEM, [false, false, true, false, false, false, false, false]),
     (CellType.ROOT, [false, false, false, false, false, false, true, false])] :=
  init_random_seed_pinned zero_draws zero_expr_draws
    (fun _ _ => ⟨le_refl 0, by norm_num [zero_expr_draws]⟩)

/-- Helper: one `base_update` of an already-dead cell just increments its
age, leaves the parent alone, and emits the removal record exactly when the
incremented age has reached `dead_cell_lifespan`. -/
theorem base_update_dead (s p : CellState) (h : s.is_alive = false) :
    base_update s p =
      ({ s with age := s.age + 1 }, p,
        decide (Config.dead_cell_lifespan ≤ s.age + 1)) := by
  unfold base_update
  by_cases hd : Config.dead_cell_lifespan ≤ s.age + 1
  · simp [h, hd]
  · simp [h, hd]

/-- C10 (amended): once `is_alive` is false it stays false under any number
of updates, the dead cell's age keeps incrementing from the value recorded
at death, and the removal record is emitted on a tick exactly when that age
reaches `dead_cell_lifespan`; at the death transition itself the recorded
death age is the parent's current age, so removal comes
`dead_cell_lifespan - (recorded death age)` ticks after death, not a fixed
`dead_cell_lifespan`. -/
theorem decay_timing :
    (∀ s p k, s.is_alive = false →
      (iter_update k (s, p)).1.is_alive = false ∧
      (iter_update k (s, p)).1.age = s.age + k ∧
      (iter_update k (s, p)).2 = p) ∧
    (∀ s p k, s.is_alive = false →
      (base_update (iter_update k (s, p)).1 (iter_update k (s, p)).2).2.2 =
        decide (Config.dead_cell_lifespan ≤ s.age + k + 1)) ∧
    (∀ s p, s.is_alive = true → p.is_alive = false →
      (base_update s p).1.is_alive = false ∧
      (base_update s p).1.age = p.age ∧
      (base_update s p).2.2 = decide (Config.dead_cell_lifespan ≤ p.age)) := by
  have key : ∀ k (s p : CellState), s.is_alive = false →
      (iter_update k (s, p)).1.is_alive = false ∧
      (iter_update k (s, p)).1.age = s.age + k ∧
      (iter_update k (s, p)).2 = p := by
    intro k
    induction k with
    | zero =>
      intro s p h
      exact ⟨h, by simp [iter_update], rfl⟩
    | succ k ih =>
      intro s p h
      rw [iter_update, base_update_dead s p h]
      obtain ⟨h1, h2, h3⟩ := ih { s with age := s.age + 1 } p h
      refine ⟨h1, ?_, h3⟩
      rw [h2]
      dsimp
      omega
  refine ⟨fun s p k h => key k s p h, ?_, ?_⟩
  · intro s p k h
    obtain ⟨h1, h2, h3⟩ := key k s p h
    rw [h3, base_update_dead _ p h1, h2]
  · intro s p hs hp
    unfold base_update
    by_cases hd : Config.dead_cell_lifespan ≤ p.age
    · simp [hs, hp, hd]
    · simp [hs, hp, hd]

/-- C10 witness: a dead cell with recorded age 10 after three more ticks is
still dead with age 13 and an untouched parent. -/
theorem decay_timing_witness :
    (iter_update 3 (⟨false, 10, 0, 0⟩, ⟨true, 0, 0, 0⟩)).1.is_alive = false ∧
    (iter_update 3 (⟨false, 10, 0, 0⟩, ⟨true, 0, 0, 0⟩)).1.age = 13 ∧
    (iter_update 3 (⟨false, 10, 0, 0⟩, ⟨true, 0, 0, 0⟩)).2 = ⟨true, 0, 0, 0⟩ :=
  decay_timing.1 ⟨false, 10, 0, 0⟩ ⟨true, 0, 0, 0⟩ 3 rfl

/-- C7: growth sampling can never perform the claimed spawn bookkeeping.
On the first expressed direction of an eligible candidate type the source
evaluates `new_coords = (self.coords[0] + coord_offset[0], ...)`
(plant_cell.py line 82), and `coord_offset` is a pydantic `Coord` with no
`__getitem__`, so the pass raises `TypeError` before any spawn is recorded
or any cost deducted.  Concretely: a STEM cell at (0,6) with
energy = water = 1/2 whose genome expresses STEM growth in directions 3 and
4 (draws 1/2, empty occupied set, all-air terrain) errors instead of
spawning. -/
theorem sample_growth_coord_subscript_typeerror :
    sample_growth genome_stem2 CellType.STEM (0, 6) 1 (1/2) (1/2) draws_half [] ground_air =
      .error .typeError ∧
    (∀ (c : Coord) (i : ℕ), c.getitem i = none) := by
  constructor
  · norm_num [sample_growth, grow_type_list, grow_dir_list, Genome.test_expression,
      CellTypeGrowthInfo.test_expression, DirectionalGrowthGenes.test_expression,
      DirectionalGrowthGenes.init_zero, genome_stem2, alookup, dot5, draws_half,
      ground_air, Coord.getitem, Config.base_growth_p, Config.distance_factor_scale,
      Config.cell_resource_capacity, Config.coords_for_directions, creation_cost_energy,
      creation_cost_water, Config.default_creation_cost, List.enum, List.enumFrom,
      List.zip, List.zipWith, List.replicate]
  · intro c i
    rfl

end PlantSim
